import Mathlib

/-!
Shallow embedding of the AB-testing core of the warden-landing repository
(`src/ab-testing.config.ts` and `src/ab-testing.utils.ts`), together with
theorems settling the specification claims about it.

Modelling conventions:
* JavaScript numbers are modelled as `ℚ` (variant weights, random scalars) or
  `ℤ` (the 32-bit hash accumulator, with explicit two-complement reduction).
* The browser environment (presence of `window`, the `localStorage` key-value
  store, and the single `warden_ab_variants` cookie) is an explicit state
  record threaded through the storage functions.  Cookie expiry is wall-clock
  time and is not modelled; no claim mentions it.
* `JSON.parse` / `JSON.stringify` of the cookie payload are abstracted: the
  cookie holds either a decodable string-to-string mapping (`wellFormed`) or
  a payload on which decoding fails or yields no mapping (`malformed`).
  The storage layer itself only ever writes well-formed payloads.
* Functions that in the source dispatch analytics events as a side effect are
  modelled as returning the dispatched event (`Option ABAnalyticsEvent`);
  the source swallows every exception, so all embedded functions are total.
* Module-level globals (`abTestRegistry`, `abTestConfig`) are passed as
  explicit parameters; the shipped values are defined below under their
  source names.
-/

namespace WardenAB

/-- Variant of an AB test (`ABVariant` in `ab-testing.config.ts`).
The `config` payload is an opaque `any` object owned by the presentational
caller; no claim inspects it, so it is not modelled. The optional
`startDate`/`endDate` fields of tests are likewise unused wall-clock data. -/
structure ABVariant where
  id : String
  name : String
  weight : ℚ
  deriving DecidableEq

/-- AB test (`ABTest` in `ab-testing.config.ts`). -/
structure ABTest where
  testId : String
  name : String
  description : String
  enabled : Bool
  variants : List ABVariant
  defaultVariant : String
  deriving DecidableEq

/-- Global configuration record (`abTestConfig` shape). The `segments` table
is declared in the source but never read by the core logic. -/
structure ABTestConfig where
  enabled : Bool
  cookieName : String
  cookieExpireDays : ℚ
  analyticsEnabled : Bool
  debugMode : Bool
  deriving DecidableEq

/-- The hero-section test from `ab-testing.config.ts`. -/
def heroABTest : ABTest :=
  { testId := "hero-messaging-test"
  , name := "Hero Section Messaging Test"
  , description := "Testing different hero messaging approaches for conversion optimization"
  , enabled := true
  , defaultVariant := "original"
  , variants :=
      [ { id := "original", name := "Original - Guardian Focus", weight := 50 }
      , { id := "protective-focus", name := "Alternative - Protection Focus", weight := 50 } ] }

/-- The mission-section test from `ab-testing.config.ts`. -/
def missionABTest : ABTest :=
  { testId := "mission-approach-test"
  , name := "Mission Section Approach Test"
  , description := "Testing different mission messaging approaches"
  , enabled := true
  , defaultVariant := "current"
  , variants :=
      [ { id := "current", name := "Current - Statistics Focus", weight := 60 }
      , { id := "aspirational", name := "Alternative - Aspirational Focus", weight := 40 } ] }

/-- The CTA-section test from `ab-testing.config.ts`. -/
def ctaABTest : ABTest :=
  { testId := "cta-messaging-test"
  , name := "Call-to-Action Messaging Test"
  , description := "Testing different CTA button text and messaging for conversion"
  , enabled := true
  , defaultVariant := "mission-focus"
  , variants :=
      [ { id := "mission-focus", name := "Mission Focus", weight := 33 }
      , { id := "tech-focus", name := "Technology Focus", weight := 33 }
      , { id := "community-focus", name := "Community Focus", weight := 34 } ] }

/-- The shipped registry object, as an ordered key/test association list. -/
def abTestRegistry : List (String × ABTest) :=
  [ ("hero", heroABTest), ("mission", missionABTest), ("cta", ctaABTest) ]

/-- The shipped global configuration from `ab-testing.config.ts`. -/
def abTestConfig : ABTestConfig :=
  { enabled := true
  , cookieName := "warden_ab_variants"
  , cookieExpireDays := 30
  , analyticsEnabled := true
  , debugMode := false }

/-- Analytics event type strings (`ABAnalyticsEvents`). -/
def VARIANT_ASSIGNED : String := "ab_variant_assigned"

/-- Analytics event type string for exposure events. -/
def VARIANT_VIEWED : String := "ab_variant_viewed"

/-- Analytics event type string for conversion events. -/
def VARIANT_CONVERSION : String := "ab_variant_conversion"

/-- Analytics event type string for interaction events. -/
def VARIANT_INTERACTION : String := "ab_variant_interaction"

/-! ## Hash function (`hashStringToNumber`) -/

/-- Two-complement reduction of an integer to the signed 32-bit range, the
effect of the `| 0`-style coercions (`<<`, `&`) in the source. -/
def toInt32 (x : ℤ) : ℤ :=
  if x % 4294967296 < 2147483648 then x % 4294967296 else x % 4294967296 - 4294967296

/-- One loop iteration of `hashStringToNumber`:
`hash = ((hash << 5) - hash) + char; hash = hash & hash`.
`hash << 5` coerces to int32 after multiplying by 32; the subtraction and
addition are exact in doubles at these magnitudes; `hash & hash` coerces the
result back to int32. -/
def hashStep (h c : ℤ) : ℤ :=
  toInt32 (toInt32 (h * 32) - h + c)

/-- The 32-bit hash accumulator after consuming a whole code-unit list. -/
def hashInt (codes : List ℤ) : ℤ :=
  codes.foldl hashStep 0

/-- UTF-16 code units of a character, matching JavaScript `charCodeAt`
iteration (characters beyond the BMP split into surrogate pairs). -/
def utf16Units (c : Char) : List ℤ :=
  let n := c.toNat
  if n < 65536 then [(n : ℤ)]
  else [(55296 + ((n - 65536) / 1024 : ℕ) : ℤ), (56320 + ((n - 65536) % 1024 : ℕ) : ℤ)]

/-- The UTF-16 code-unit sequence of a string. -/
def strCodes (s : String) : List ℤ :=
  s.data.flatMap utf16Units

/-- `hashStringToNumber` from `ab-testing.utils.ts`:
`Math.abs(hash) / Math.pow(2, 31)` applied to the 32-bit accumulator. -/
def hashStringToNumber (s : String) : ℚ :=
  ((hashInt (strCodes s)).natAbs : ℚ) / 2 ^ 31

/-! ## Registry and variant lookup helpers -/

/-- `getTestByIdFromRegistry`: linear scan of `Object.values(abTestRegistry)`
for a test with the given `testId`. -/
def getTestByIdFromRegistry (registry : List (String × ABTest)) (testId : String) : Option ABTest :=
  (registry.map Prod.snd).find? (fun test => test.testId == testId)

/-- `getVariantById`: first variant of the test with the given id, else none. -/
def getVariantById (test : ABTest) (variantId : String) : Option ABVariant :=
  test.variants.find? (fun v => v.id == variantId)

/-- `getDefaultVariant`: the variant named by `test.defaultVariant` (the
source also accepts a null test and returns null for it; that case is the
`none` branch of the registry lookup in `getVariant` below). -/
def getDefaultVariant (test : ABTest) : Option ABVariant :=
  getVariantById test test.defaultVariant

/-- `isValidVariant`: whether some variant of the test has the given id. -/
def isValidVariant (test : ABTest) (variantId : String) : Bool :=
  test.variants.any (fun v => v.id == variantId)

/-! ## Weighted selection (`assignVariantByWeight`) -/

/-- The selection scalar of `assignVariantByWeight`:
`userId ? hashStringToNumber(userId + test.testId) : Math.random()`.
The guard is JS truthiness, so both a missing userId and the empty-string
userId fall to the `Math.random()` draw `rnd`; only a non-empty userId takes
the deterministic hash path. -/
def selectionScalar (userId : Option String) (testId : String) (rnd : ℚ) : ℚ :=
  match userId with
  | some u => if u == "" then rnd else hashStringToNumber (u ++ testId)
  | none => rnd

/-- The `for (const variant of enabledVariants)` loop of
`assignVariantByWeight`: accumulate weights and return the first variant with
`randomPercent <= cumulativeWeight`, or none when the loop falls through. -/
def pickByWeight : List ABVariant → ℚ → ℚ → Option ABVariant
  | [], _, _ => none
  | v :: rest, randomPercent, cumulativeWeight =>
    if randomPercent ≤ cumulativeWeight + v.weight then some v
    else pickByWeight rest randomPercent (cumulativeWeight + v.weight)

/-- `assignVariantByWeight` from `ab-testing.utils.ts`. `rnd` stands for the
`Math.random()` draw used on the anonymous path. -/
def assignVariantByWeight (test : ABTest) (userId : Option String) (rnd : ℚ) : Option ABVariant :=
  let enabledVariants := test.variants.filter (fun v => 0 < v.weight)
  if enabledVariants.length = 0 then getDefaultVariant test
  else
    let randomPercent := selectionScalar userId test.testId rnd * 100
    match pickByWeight enabledVariants randomPercent 0 with
    | some v => some v
    | none => enabledVariants.head?

/-! ## Storage layer -/

/-- Content of the `warden_ab_variants` cookie: either a payload that decodes
to a string-to-string mapping, or one on which `JSON.parse` throws (or that
yields no indexable object) — the storage layer treats every such payload
identically, so they are collapsed into one `malformed` constructor. -/
inductive CookiePayload where
  | wellFormed : List (String × String) → CookiePayload
  | malformed : CookiePayload
  deriving DecidableEq

/-- Browser-side storage state: whether `window` exists, the `localStorage`
key-value pairs, and the cookie named `abTestConfig.cookieName` (if set). -/
structure BrowserEnv where
  hasWindow : Bool
  localStore : List (String × String)
  cookie : Option CookiePayload
  deriving DecidableEq

/-- Association-list lookup, the `localStorage.getItem` / object-index read. -/
def lookupStr (m : List (String × String)) (k : String) : Option String :=
  (m.find? (fun p => p.1 == k)).map Prod.snd

/-- Association-list insert with JavaScript object-assignment semantics: an
existing key keeps its position and gets the new value, a new key is
appended. -/
def insertStr (m : List (String × String)) (k v : String) : List (String × String) :=
  if (m.find? (fun p => p.1 == k)).isSome then
    m.map (fun p => if p.1 == k then (k, v) else p)
  else m ++ [(k, v)]

/-- The cookie-fallback half of `getStoredVariant`: decode the cookie payload
and index it with the testId (`variants[testId] || null`; a decode failure is
caught and yields null). -/
def readCookieVariant (env : BrowserEnv) (testId : String) : Option String :=
  match env.cookie with
  | some (.wellFormed m) =>
    match lookupStr m testId with
    | some v => if v == "" then none else some v
    | none => none
  | some .malformed => none
  | none => none

/-- `getStoredVariant` from `ab-testing.utils.ts`: no window means no value;
otherwise `localStorage` first (`if (stored) return stored` — an empty string
is falsy and falls through), then the cookie mapping. -/
def getStoredVariant (env : BrowserEnv) (testId : String) : Option String :=
  if env.hasWindow then
    match lookupStr env.localStore ("ab_" ++ testId) with
    | some stored => if stored == "" then readCookieVariant env testId else some stored
    | none => readCookieVariant env testId
  else none

/-- `storeVariant` from `ab-testing.utils.ts`: a no-op without a window;
otherwise write the `localStorage` entry, then read-modify-write the cookie
mapping, rebuilding it from the empty object when the existing payload does
not decode. -/
def storeVariant (env : BrowserEnv) (testId variantId : String) : BrowserEnv :=
  if env.hasWindow then
    let ls := insertStr env.localStore ("ab_" ++ testId) variantId
    let base : List (String × String) :=
      match env.cookie with
      | some (.wellFormed m) => m
      | some .malformed => []
      | none => []
    { env with localStore := ls
             , cookie := some (.wellFormed (insertStr base testId variantId)) }
  else env

/-! ## Analytics emitter -/

/-- A dispatched analytics event (`ABAnalyticsEvent`); the wall-clock
`timestamp` field is not modelled.  Metadata values in the claims are
strings, so metadata is a string-to-string association list. -/
structure ABAnalyticsEvent where
  type : String
  testId : String
  variantId : String
  metadata : Option (List (String × String))
  deriving DecidableEq

/-- JavaScript object-spread merge `\x7b k0: v0, ...extra \x7d`: start from
the base entries, then let each entry of `extra` overwrite or extend. -/
def mergeSpread (base extra : List (String × String)) : List (String × String) :=
  extra.foldl (fun acc p => insertStr acc p.1 p.2) base

/-- `trackAnalyticsEvent`: returns the event it dispatches, none when the
global analytics flag is off (debug logging and the best-effort `window.va`
dispatch have no further observable effect on the model). -/
def trackAnalyticsEvent (cfg : ABTestConfig) (type testId variantId : String)
    (metadata : Option (List (String × String))) : Option ABAnalyticsEvent :=
  if cfg.analyticsEnabled then some ⟨type, testId, variantId, metadata⟩ else none

/-- `trackConversion`: only a visitor with a stored assignment emits, with the
`conversion_type` discriminator merged under the caller metadata. -/
def trackConversion (cfg : ABTestConfig) (env : BrowserEnv) (testId conversionType : String)
    (metadata : List (String × String)) : Option ABAnalyticsEvent :=
  match getStoredVariant env testId with
  | some variant =>
    trackAnalyticsEvent cfg VARIANT_CONVERSION testId variant
      (some (mergeSpread [("conversion_type", conversionType)] metadata))
  | none => none

/-- `trackInteraction`: same gating as `trackConversion`, with the
`interaction_type` discriminator. -/
def trackInteraction (cfg : ABTestConfig) (env : BrowserEnv) (testId interactionType : String)
    (metadata : List (String × String)) : Option ABAnalyticsEvent :=
  match getStoredVariant env testId with
  | some variant =>
    trackAnalyticsEvent cfg VARIANT_INTERACTION testId variant
      (some (mergeSpread [("interaction_type", interactionType)] metadata))
  | none => none

/-! ## Assignment engine (`getVariant`) -/

/-- Result of one `getVariant` call: the returned variant, the storage state
after the call, and the analytics events dispatched during it. -/
structure GetVariantResult where
  variant : Option ABVariant
  env : BrowserEnv
  events : List ABAnalyticsEvent
  deriving DecidableEq

/-- `getVariant` from `ab-testing.utils.ts`, with the registry, global
configuration, storage state and the anonymous-path random draw made
explicit.  A missing test returns `getDefaultVariant(null) = null`. -/
def getVariant (cfg : ABTestConfig) (registry : List (String × ABTest)) (env : BrowserEnv)
    (testId : String) (userId : Option String) (rnd : ℚ) : GetVariantResult :=
  match getTestByIdFromRegistry registry testId with
  | none => ⟨none, env, []⟩
  | some test =>
    if test.enabled && cfg.enabled then
      match getStoredVariant env testId with
      | some storedVariant =>
        if isValidVariant test storedVariant then
          ⟨getVariantById test storedVariant, env,
            (trackAnalyticsEvent cfg VARIANT_VIEWED testId storedVariant none).toList⟩
        else
          match assignVariantByWeight test userId rnd with
          | some selectedVariant =>
            ⟨some selectedVariant, storeVariant env testId selectedVariant.id,
              (trackAnalyticsEvent cfg VARIANT_ASSIGNED testId selectedVariant.id none).toList⟩
          | none => ⟨getDefaultVariant test, env, []⟩
      | none =>
        match assignVariantByWeight test userId rnd with
        | some selectedVariant =>
          ⟨some selectedVariant, storeVariant env testId selectedVariant.id,
            (trackAnalyticsEvent cfg VARIANT_ASSIGNED testId selectedVariant.id none).toList⟩
        | none => ⟨getDefaultVariant test, env, []⟩
    else ⟨getDefaultVariant test, env, []⟩

/-! ## Concrete scenario data used to instantiate the theorems -/

/-- Scenario variant A, weight 60. -/
def variantA : ABVariant := ⟨"A", "Variant A", 60⟩

/-- Scenario variant B, weight 40. -/
def variantB : ABVariant := ⟨"B", "Variant B", 40⟩

/-- The spec scenario test: variants A (60) then B (40), default A. -/
def testAB : ABTest := ⟨"t", "Scenario Test", "weights 60 and 40", true, [variantA, variantB], "A"⟩

/-- A test whose only variant has weight 0, so no variant qualifies for
weighted selection. -/
def testZeroWeights : ABTest :=
  ⟨"z", "Zero Weight Test", "no positive weight", true, [⟨"z1", "Z1", 0⟩], "z1"⟩

/-- A test whose weights sum to 60, below 100, exercising the undershoot
fallthrough of the selection loop. -/
def testUndershoot : ABTest :=
  ⟨"u", "Undershoot Test", "weights sum to 60", true, [⟨"u1", "U1", 30⟩, ⟨"u2", "U2", 30⟩], "u1"⟩

/-- A browser state with no assignments at all. -/
def envEmpty : BrowserEnv := ⟨true, [], none⟩

/-- A browser state whose primary store already holds a valid hero-test
assignment. -/
def envStored : BrowserEnv := ⟨true, [("ab_hero-messaging-test", "protective-focus")], none⟩

/-- A browser state whose primary store holds a hero-test assignment that
names no existing variant. -/
def envBogus : BrowserEnv := ⟨true, [("ab_hero-messaging-test", "bogus")], none⟩

/-- A browser state whose primary store holds the empty string for the hero
test while the cookie mirror holds a real variant id. -/
def envBlankPrimary : BrowserEnv :=
  ⟨true, [("ab_hero-messaging-test", "")], some (.wellFormed [("hero-messaging-test", "protective-focus")])⟩

/-- A browser state where the two stores disagree on a test assignment. -/
def envDisagree : BrowserEnv :=
  ⟨true, [("ab_t", "x")], some (.wellFormed [("t", "y")])⟩

/-- A non-browser execution state (no window) that nevertheless carries stale
storage content, to show reads and writes ignore it. -/
def envNoWindow : BrowserEnv := ⟨false, [("ab_t", "x")], some .malformed⟩

/-- A browser state whose cookie payload does not decode. -/
def envMalformed : BrowserEnv := ⟨true, [], some .malformed⟩

/-- The shipped configuration with the global testing flag turned off. -/
def abTestConfigDisabled : ABTestConfig := { abTestConfig with enabled := false }

/-- A string whose 32-bit hash is exactly -2^31, making
`hashStringToNumber` return exactly 1. -/
def hashOneString : String :=
  String.mk [Char.ofNat 2325, Char.ofNat 9, Char.ofNat 30, Char.ofNat 12, Char.ofNat 2]

/-- Cumulative weight of the first `n` variants of a list, the loop invariant
quantity of the selection walk. -/
def takeWeightSum (l : List ABVariant) (n : ℕ) : ℚ :=
  ((l.take n).map (fun v => v.weight)).sum

/-! ## Helper lemmas -/

/-- The 32-bit reduction lands in the signed 32-bit range. -/
theorem toInt32_bounds (x : ℤ) : -2147483648 ≤ toInt32 x ∧ toInt32 x < 2147483648 := by
  unfold toInt32
  have h0 : 0 ≤ x % 4294967296 := Int.emod_nonneg x (by norm_num)
  have h1 : x % 4294967296 < 4294967296 := Int.emod_lt_of_pos x (by norm_num)
  split <;> omega

/-- The hash accumulator never leaves the signed 32-bit range, so its
absolute value is at most 2^31. -/
theorem hashInt_natAbs_le (codes : List ℤ) : (hashInt codes).natAbs ≤ 2147483648 := by
  unfold hashInt
  suffices aux : ∀ (l : List ℤ) (acc : ℤ), -2147483648 ≤ acc → acc ≤ 2147483648 →
      -2147483648 ≤ l.foldl hashStep acc ∧ l.foldl hashStep acc ≤ 2147483648 by
    have h := aux codes 0 (by norm_num) (by norm_num)
    omega
  intro l
  induction l with
  | nil => intro acc h1 h2; simpa using ⟨h1, h2⟩
  | cons c rest ih =>
    intro acc h1 h2
    have hb : -2147483648 ≤ hashStep acc c ∧ hashStep acc c < 2147483648 := toInt32_bounds _
    simpa [List.foldl_cons] using ih (hashStep acc c) hb.1 (le_of_lt hb.2)

/-- The hash-derived selection scalar lies in the closed unit interval. -/
theorem hashStringToNumber_mem_unit (s : String) :
    0 ≤ hashStringToNumber s ∧ hashStringToNumber s ≤ 1 := by
  unfold hashStringToNumber
  refine ⟨by positivity, ?_⟩
  rw [div_le_one (by positivity)]
  have h := hashInt_natAbs_le (strCodes s)
  calc ((hashInt (strCodes s)).natAbs : ℚ) ≤ (2147483648 : ℕ) := by exact_mod_cast h
    _ = 2 ^ 31 := by norm_num

/-- The selection scalar (hash-based or random) is at most 1 whenever the
random draw is. -/
theorem selectionScalar_le_one (userId : Option String) (testId : String) (rnd : ℚ)
    (h : rnd ≤ 1) : selectionScalar userId testId rnd ≤ 1 := by
  cases userId with
  | some u =>
    simp only [selectionScalar]
    split
    · exact h
    · exact (hashStringToNumber_mem_unit (u ++ testId)).2
  | none => exact h

/-- A valid variant id names an actual variant, and the one found carries
that id. -/
theorem getVariantById_of_valid (test : ABTest) (v : String)
    (h : isValidVariant test v = true) :
    ∃ w, getVariantById test v = some w ∧ w.id = v := by
  unfold isValidVariant at h
  obtain ⟨w, hw, hp⟩ := List.any_eq_true.mp h
  have hsome : (test.variants.find? (fun x => x.id == v)).isSome :=
    List.find?_isSome.mpr ⟨w, hw, hp⟩
  obtain ⟨w', hw'⟩ := Option.isSome_iff_exists.mp hsome
  refine ⟨w', hw', ?_⟩
  have := List.find?_some hw'
  exact eq_of_beq this

/-- If every prefix of the qualifying list accumulates strictly below the
scaled scalar, the selection loop falls through. -/
theorem pickByWeight_eq_none (l : List ABVariant) (rp : ℚ) :
    ∀ acc : ℚ, (∀ k < l.length, acc + takeWeightSum l (k + 1) < rp) →
      pickByWeight l rp acc = none := by
  induction l with
  | nil => intro acc _; rfl
  | cons v rest ih =>
    intro acc h
    have h0 : acc + v.weight < rp := by
      have := h 0 (Nat.succ_pos rest.length)
      simpa [takeWeightSum] using this
    rw [pickByWeight, if_neg (not_le.mpr h0)]
    refine ih (acc + v.weight) (fun k hk => ?_)
    have := h (k + 1) (by simpa using Nat.succ_lt_succ hk)
    have e : takeWeightSum (v :: rest) (k + 2) = v.weight + takeWeightSum rest (k + 1) := by
      simp [takeWeightSum]
    linarith

/-- The selection loop returns the variant at the first index whose
cumulative weight reaches the scaled scalar. -/
theorem pickByWeight_eq_getElem (l : List ABVariant) (rp : ℚ) :
    ∀ (acc : ℚ) (k : ℕ), k < l.length →
      rp ≤ acc + takeWeightSum l (k + 1) →
      (∀ j < k, acc + takeWeightSum l (j + 1) < rp) →
      pickByWeight l rp acc = l[k]? := by
  induction l with
  | nil => intro acc k hk; exact absurd hk (Nat.not_lt_zero k)
  | cons v rest ih =>
    intro acc k hk hle hlt
    match k with
    | 0 =>
      have h0 : rp ≤ acc + v.weight := by simpa [takeWeightSum] using hle
      rw [pickByWeight, if_pos h0]
      simp
    | k + 1 =>
      have h0 : acc + v.weight < rp := by
        have := hlt 0 (Nat.succ_pos k)
        simpa [takeWeightSum] using this
      rw [pickByWeight, if_neg (not_le.mpr h0)]
      have e : takeWeightSum (v :: rest) (k + 2) = v.weight + takeWeightSum rest (k + 1) := by
        simp [takeWeightSum]
      have hle' : rp ≤ acc + v.weight + takeWeightSum rest (k + 1) := by linarith
      have hlt' : ∀ j < k, acc + v.weight + takeWeightSum rest (j + 1) < rp := by
        intro j hj
        have := hlt (j + 1) (Nat.succ_lt_succ hj)
        have ej : takeWeightSum (v :: rest) (j + 2) = v.weight + takeWeightSum rest (j + 1) := by
          simp [takeWeightSum]
        linarith
      have := ih (acc + v.weight) k (by simpa using hk) hle' hlt'
      simpa using this

/-- When the scaled scalar is at most the total qualifying weight, the
selection loop cannot fall through. -/
theorem pickByWeight_isSome (l : List ABVariant) (rp : ℚ) :
    ∀ acc : ℚ, l ≠ [] → rp ≤ acc + takeWeightSum l l.length →
      (pickByWeight l rp acc).isSome := by
  induction l with
  | nil => intro acc h; exact absurd rfl h
  | cons v rest ih =>
    intro acc _ htot
    by_cases hc : rp ≤ acc + v.weight
    · rw [pickByWeight, if_pos hc]; rfl
    · rw [pickByWeight, if_neg hc]
      have e : takeWeightSum (v :: rest) (rest.length + 1)
          = v.weight + takeWeightSum rest rest.length := by
        simp [takeWeightSum]
      match rest with
      | [] =>
        exfalso
        have : takeWeightSum [v] 1 = v.weight := by simp [takeWeightSum]
        rw [List.length_singleton, this] at htot
        exact hc htot
      | w :: rest' =>
        refine ih (acc + v.weight) (by simp) ?_
        have : takeWeightSum (v :: w :: rest') ((w :: rest').length + 1)
            = v.weight + takeWeightSum (w :: rest') (w :: rest').length := by
          simp [takeWeightSum]
        rw [List.length_cons, this] at htot
        linarith

/-! ## Claim theorems -/

/-- C1: weighted selection filters to variants with weight > 0 and, when none
qualify, returns the default variant; otherwise it scales the selection
scalar by 100 and walks the qualifying variants in declaration order,
returning the first one whose cumulative weight is at least the scaled
scalar, or the first qualifying variant when every cumulative weight stays
below it; on the spec scenario (A weight 60, then B weight 40), scalar 0.5
selects A and scalar 0.9 selects B. -/
theorem abtest_c1 :
    (∀ (test : ABTest) (userId : Option String) (rnd : ℚ),
        test.variants.filter (fun v => 0 < v.weight) = [] →
        assignVariantByWeight test userId rnd = getDefaultVariant test)
  ∧ (∀ (test : ABTest) (userId : Option String) (rnd : ℚ) (k : ℕ),
        k < (test.variants.filter (fun v => 0 < v.weight)).length →
        selectionScalar userId test.testId rnd * 100
          ≤ takeWeightSum (test.variants.filter (fun v => 0 < v.weight)) (k + 1) →
        (∀ j < k, takeWeightSum (test.variants.filter (fun v => 0 < v.weight)) (j + 1)
          < selectionScalar userId test.testId rnd * 100) →
        assignVariantByWeight test userId rnd
          = (test.variants.filter (fun v => 0 < v.weight))[k]?)
  ∧ (∀ (test : ABTest) (userId : Option String) (rnd : ℚ),
        test.variants.filter (fun v => 0 < v.weight) ≠ [] →
        (∀ k < (test.variants.filter (fun v => 0 < v.weight)).length,
          takeWeightSum (test.variants.filter (fun v => 0 < v.weight)) (k + 1)
            < selectionScalar userId test.testId rnd * 100) →
        assignVariantByWeight test userId rnd
          = (test.variants.filter (fun v => 0 < v.weight)).head?)
  ∧ assignVariantByWeight testAB none (1 / 2) = some variantA
  ∧ assignVariantByWeight testAB none (9 / 10) = some variantB := by
  refine ⟨?_, ?_, ?_, ?_, ?_⟩
  · intro test userId rnd hf
    simp [assignVariantByWeight, hf]
  · intro test userId rnd k hk hle hlt
    have hne : ¬ (test.variants.filter (fun v => 0 < v.weight)).length = 0 := by omega
    have e := List.getElem?_eq_getElem hk
    simp only [assignVariantByWeight]
    rw [if_neg hne,
      pickByWeight_eq_getElem _ _ 0 k hk (by simpa using hle) (fun j hj => by simpa using hlt j hj),
      e]
  · intro test userId rnd hq hlt
    have hne : ¬ (test.variants.filter (fun v => 0 < v.weight)).length = 0 := by
      simpa [List.length_eq_zero] using hq
    simp only [assignVariantByWeight]
    rw [if_neg hne, pickByWeight_eq_none _ _ 0 (fun k hk => by simpa using hlt k hk)]
  · norm_num [assignVariantByWeight, pickByWeight, selectionScalar, testAB, variantA, variantB,
      List.filter]
  · norm_num [assignVariantByWeight, pickByWeight, selectionScalar, testAB, variantA, variantB,
      List.filter]

/-- C1 witness: the no-qualifier, first-hit and undershoot branches exercised
on concrete tests and scalars. -/
theorem abtest_c1_witness :
    assignVariantByWeight testZeroWeights none (1 / 2) = getDefaultVariant testZeroWeights
  ∧ assignVariantByWeight testAB none (1 / 2)
      = (testAB.variants.filter (fun v => 0 < v.weight))[0]?
  ∧ assignVariantByWeight testUndershoot none (9 / 10)
      = (testUndershoot.variants.filter (fun v => 0 < v.weight)).head? := by
  refine ⟨abtest_c1.1 testZeroWeights none (1 / 2) ?_,
    abtest_c1.2.1 testAB none (1 / 2) 0 ?_ ?_ ?_,
    abtest_c1.2.2.1 testUndershoot none (9 / 10) ?_ ?_⟩
  · norm_num [testZeroWeights, List.filter]
  · norm_num [testAB, variantA, variantB, List.filter]
  · norm_num [selectionScalar, takeWeightSum, testAB, variantA, variantB, List.filter]
  · intro j hj; exact absurd hj (Nat.not_lt_zero j)
  · have hfil : testUndershoot.variants.filter (fun v => 0 < v.weight) = testUndershoot.variants := by
      norm_num [testUndershoot, List.filter]
    rw [hfil]
    simp [testUndershoot]
  · intro k hk
    have hk2 : k < 2 := by
      simpa [testUndershoot, List.filter] using hk
    interval_cases k <;>
      norm_num [selectionScalar, takeWeightSum, testUndershoot, List.filter]

/-- C2: once a stored assignment names an existing variant of an enabled
test (with global testing enabled), getVariant returns exactly that variant
for every random draw and every userId, and leaves the storage state
untouched. -/
theorem abtest_c2 (cfg : ABTestConfig) (registry : List (String × ABTest)) (env : BrowserEnv)
    (testId : String) (test : ABTest) (v : String) (userId : Option String) (rnd : ℚ)
    (hlook : getTestByIdFromRegistry registry testId = some test)
    (hen : test.enabled = true) (hgen : cfg.enabled = true)
    (hstored : getStoredVariant env testId = some v)
    (hvalid : isValidVariant test v = true) :
    (getVariant cfg registry env testId userId rnd).variant = getVariantById test v
  ∧ (∃ w, getVariantById test v = some w ∧ w.id = v)
  ∧ (getVariant cfg registry env testId userId rnd).env = env := by
  have hres : getVariant cfg registry env testId userId rnd
      = ⟨getVariantById test v, env,
          (trackAnalyticsEvent cfg VARIANT_VIEWED testId v none).toList⟩ := by
    unfold getVariant
    rw [hlook]
    simp [hen, hgen, hstored, hvalid]
  rw [hres]
  exact ⟨rfl, getVariantById_of_valid test v hvalid, rfl⟩

/-- C2 witness: the hero test with a stored protective-focus assignment
returns that variant and leaves storage unchanged. -/
theorem abtest_c2_witness :
    (getVariant abTestConfig abTestRegistry envStored "hero-messaging-test" none (3 / 4)).variant
      = getVariantById heroABTest "protective-focus"
  ∧ (∃ w, getVariantById heroABTest "protective-focus" = some w ∧ w.id = "protective-focus")
  ∧ (getVariant abTestConfig abTestRegistry envStored "hero-messaging-test" none (3 / 4)).env
      = envStored :=
  abtest_c2 abTestConfig abTestRegistry envStored "hero-messaging-test" heroABTest
    "protective-focus" none (3 / 4) rfl rfl rfl rfl rfl

/-- C3: a registry test that is disabled, or a globally disabled
configuration, makes getVariant return the default variant (the variant
whose id is the defaultVariant field) with storage untouched and no events,
ignoring any stored assignment; an unknown testId yields no variant at
all. -/
theorem abtest_c3 :
    (∀ (cfg : ABTestConfig) (registry : List (String × ABTest)) (env : BrowserEnv)
        (testId : String) (test : ABTest) (userId : Option String) (rnd : ℚ),
        getTestByIdFromRegistry registry testId = some test →
        (test.enabled = false ∨ cfg.enabled = false) →
        getVariant cfg registry env testId userId rnd = ⟨getDefaultVariant test, env, []⟩
          ∧ getDefaultVariant test = getVariantById test test.defaultVariant)
  ∧ (∀ (cfg : ABTestConfig) (registry : List (String × ABTest)) (env : BrowserEnv)
        (testId : String) (userId : Option String) (rnd : ℚ),
        getTestByIdFromRegistry registry testId = none →
        getVariant cfg registry env testId userId rnd = ⟨none, env, []⟩) := by
  constructor
  · intro cfg registry env testId test userId rnd hlook hdis
    refine ⟨?_, rfl⟩
    unfold getVariant
    rw [hlook]
    rcases hdis with h | h <;> simp [h]
  · intro cfg registry env testId userId rnd hlook
    unfold getVariant
    rw [hlook]

/-- C3 witness: with global testing off the hero test resolves to its
default variant even though storage says protective-focus, and an unknown
testId resolves to no variant. -/
theorem abtest_c3_witness :
    (getVariant abTestConfigDisabled abTestRegistry envStored "hero-messaging-test" none (3 / 4)
        = ⟨getDefaultVariant heroABTest, envStored, []⟩
      ∧ getDefaultVariant heroABTest = getVariantById heroABTest heroABTest.defaultVariant)
  ∧ getVariant abTestConfig abTestRegistry envStored "unknown-test" none (3 / 4)
      = ⟨none, envStored, []⟩ :=
  ⟨abtest_c3.1 abTestConfigDisabled abTestRegistry envStored "hero-messaging-test" heroABTest
      none (3 / 4) rfl (Or.inr rfl),
    abtest_c3.2 abTestConfig abTestRegistry envStored "unknown-test" none (3 / 4) rfl⟩

/-- C5 (amended): for an identified visitor with a non-empty userId and no
stored assignment on an enabled test, resolution does not depend on the
random draw — the hash-based path is a pure function of userId + testId.
The empty-string userId is falsy at the source guard and falls to the
random draw, as the counterexample shows. -/
theorem abtest_c5 (cfg : ABTestConfig) (registry : List (String × ABTest)) (env : BrowserEnv)
    (testId : String) (test : ABTest) (u : String) (rnd₁ rnd₂ : ℚ)
    (hne : u ≠ "")
    (hlook : getTestByIdFromRegistry registry testId = some test)
    (hen : test.enabled = true) (hgen : cfg.enabled = true)
    (hstored : getStoredVariant env testId = none) :
    getVariant cfg registry env testId (some u) rnd₁
      = getVariant cfg registry env testId (some u) rnd₂ := by
  have hbeq : (u == "") = false := by simpa using hne
  have hassign : assignVariantByWeight test (some u) rnd₁
      = assignVariantByWeight test (some u) rnd₂ := by
    simp [assignVariantByWeight, selectionScalar, hbeq]
  unfold getVariant
  rw [hlook]
  simp [hen, hgen, hstored, hassign]

/-- C5 counterexample: with the empty-string userId (falsy in the source, so
routed to the random draw) and no stored assignment, two resolutions of the
hero test under different draws return different variants. -/
theorem abtest_c5_counterexample :
    (getVariant abTestConfig abTestRegistry envEmpty "hero-messaging-test" (some "") (3 / 8)).variant
      = some { id := "original", name := "Original - Guardian Focus", weight := 50 }
  ∧ (getVariant abTestConfig abTestRegistry envEmpty "hero-messaging-test" (some "") (7 / 8)).variant
      = some { id := "protective-focus", name := "Alternative - Protection Focus", weight := 50 }
  ∧ (getVariant abTestConfig abTestRegistry envEmpty "hero-messaging-test" (some "") (3 / 8)).variant
      ≠ (getVariant abTestConfig abTestRegistry envEmpty "hero-messaging-test" (some "")
          (7 / 8)).variant := by
  have h1 : getTestByIdFromRegistry abTestRegistry "hero-messaging-test" = some heroABTest := rfl
  have h2 : getStoredVariant envEmpty "hero-messaging-test" = none := rfl
  have hen : heroABTest.enabled = true := rfl
  have hce : abTestConfig.enabled = true := rfl
  have ha1 : assignVariantByWeight heroABTest (some "") (3 / 8)
      = some { id := "original", name := "Original - Guardian Focus", weight := 50 } := by
    norm_num [assignVariantByWeight, pickByWeight, selectionScalar, heroABTest, List.filter]
  have ha2 : assignVariantByWeight heroABTest (some "") (7 / 8)
      = some { id := "protective-focus", name := "Alternative - Protection Focus", weight := 50 } := by
    norm_num [assignVariantByWeight, pickByWeight, selectionScalar, heroABTest, List.filter]
  have e1 : (getVariant abTestConfig abTestRegistry envEmpty "hero-messaging-test" (some "")
      (3 / 8)).variant
      = some { id := "original", name := "Original - Guardian Focus", weight := 50 } := by
    unfold getVariant
    rw [h1]
    simp [h2, hen, hce, ha1]
  have e2 : (getVariant abTestConfig abTestRegistry envEmpty "hero-messaging-test" (some "")
      (7 / 8)).variant
      = some { id := "protective-focus", name := "Alternative - Protection Focus", weight := 50 } := by
    unfold getVariant
    rw [h1]
    simp [h2, hen, hce, ha2]
  refine ⟨e1, e2, ?_⟩
  rw [e1, e2]
  intro h
  exact absurd (congrArg (fun o => Option.map ABVariant.id o) h) (by decide)

/-- C5 amended-claim witness: two resolutions of the hero test for the same
identified visitor (non-empty id) under different random draws coincide. -/
theorem abtest_c5_witness :
    getVariant abTestConfig abTestRegistry envEmpty "hero-messaging-test" (some "alice") (1 / 4)
      = getVariant abTestConfig abTestRegistry envEmpty "hero-messaging-test" (some "alice")
          (7 / 8) :=
  abtest_c5 abTestConfig abTestRegistry envEmpty "hero-messaging-test" heroABTest "alice"
    (1 / 4) (7 / 8) (by decide) rfl rfl rfl rfl

/-- C4 (amended): the primary store is consulted first, and a non-empty
primary value is returned no matter what the secondary store holds; an
empty-string primary entry is falsy in the source and falls through to the
secondary store. -/
theorem abtest_c4 (env : BrowserEnv) (testId v : String)
    (hwin : env.hasWindow = true)
    (hprim : lookupStr env.localStore ("ab_" ++ testId) = some v)
    (hne : v ≠ "") :
    getStoredVariant env testId = some v := by
  unfold getStoredVariant
  rw [hwin, hprim]
  simp [hne]

/-- C4 counterexample: both stores hold a value for the hero test and the
values differ, yet the secondary value is returned, because the primary
holds the empty string and the source treats it as unset. -/
theorem abtest_c4_counterexample :
    lookupStr envBlankPrimary.localStore ("ab_" ++ "hero-messaging-test") = some ""
  ∧ readCookieVariant envBlankPrimary "hero-messaging-test" = some "protective-focus"
  ∧ getStoredVariant envBlankPrimary "hero-messaging-test" = some "protective-focus"
  ∧ (some "protective-focus" : Option String) ≠ some "" :=
  ⟨rfl, rfl, rfl, by decide⟩

/-- C4 witness: with disagreeing non-empty entries in the two stores, the
primary value wins. -/
theorem abtest_c4_witness : getStoredVariant envDisagree "t" = some "x" :=
  abtest_c4 envDisagree "t" "x" rfl rfl (by decide)

/-- C6: with no stored assignment neither tracker emits an event; with a
stored assignment and analytics on, the emitted event carries the caller
metadata merged over the fixed discriminator field. -/
theorem abtest_c6 (cfg : ABTestConfig) (env : BrowserEnv) (testId ty : String)
    (meta : List (String × String)) :
    (getStoredVariant env testId = none →
        trackConversion cfg env testId ty meta = none
      ∧ trackInteraction cfg env testId ty meta = none)
  ∧ (∀ v, getStoredVariant env testId = some v → cfg.analyticsEnabled = true →
        trackConversion cfg env testId ty meta
          = some ⟨VARIANT_CONVERSION, testId, v,
              some (mergeSpread [("conversion_type", ty)] meta)⟩
      ∧ trackInteraction cfg env testId ty meta
          = some ⟨VARIANT_INTERACTION, testId, v,
              some (mergeSpread [("interaction_type", ty)] meta)⟩) := by
  constructor
  · intro h
    constructor <;> simp [trackConversion, trackInteraction, h]
  · intro v h ha
    constructor <;> simp [trackConversion, trackInteraction, trackAnalyticsEvent, h, ha]

/-- C6 witness: the unassigned state emits nothing, and a stored hero
assignment emits events whose metadata merges the discriminator with the
caller metadata. -/
theorem abtest_c6_witness :
    (trackConversion abTestConfig envEmpty "hero-messaging-test" "signup" [] = none
      ∧ trackInteraction abTestConfig envEmpty "hero-messaging-test" "signup" [] = none)
  ∧ (trackConversion abTestConfig envStored "hero-messaging-test" "signup" [("page", "home")]
        = some ⟨VARIANT_CONVERSION, "hero-messaging-test", "protective-focus",
            some (mergeSpread [("conversion_type", "signup")] [("page", "home")])⟩
      ∧ trackInteraction abTestConfig envStored "hero-messaging-test" "signup" [("page", "home")]
        = some ⟨VARIANT_INTERACTION, "hero-messaging-test", "protective-focus",
            some (mergeSpread [("interaction_type", "signup")] [("page", "home")])⟩) :=
  ⟨(abtest_c6 abTestConfig envEmpty "hero-messaging-test" "signup" []).1 rfl,
    (abtest_c6 abTestConfig envStored "hero-messaging-test" "signup" [("page", "home")]).2
      "protective-focus" rfl rfl⟩

/-- C7 (amended): a stored assignment naming a variant that no longer exists
is ignored, and resolution performs a fresh weighted selection instead of
falling back to the default variant; the default (or no variant at all) is
returned only when the weighted selection itself yields nothing. -/
theorem abtest_c7 (cfg : ABTestConfig) (registry : List (String × ABTest)) (env : BrowserEnv)
    (testId : String) (test : ABTest) (userId : Option String) (rnd : ℚ) (v : String)
    (hlook : getTestByIdFromRegistry registry testId = some test)
    (hen : test.enabled = true) (hgen : cfg.enabled = true)
    (hstored : getStoredVariant env testId = some v)
    (hinvalid : isValidVariant test v = false) :
    (getVariant cfg registry env testId userId rnd).variant
      = assignVariantByWeight test userId rnd := by
  unfold getVariant
  rw [hlook]
  cases hassign : assignVariantByWeight test userId rnd with
  | some sel => simp [hen, hgen, hstored, hinvalid, hassign]
  | none =>
    simp only [hen, hgen, hstored, hinvalid, Bool.and_self, if_true, Bool.false_eq_true,
      if_false, hassign]
    simp only [assignVariantByWeight] at hassign
    by_cases hq : (test.variants.filter (fun v => 0 < v.weight)).length = 0
    · rw [if_pos hq] at hassign
      simpa using hassign
    · exfalso
      rw [if_neg hq] at hassign
      cases hpick : pickByWeight (test.variants.filter (fun v => 0 < v.weight))
          (selectionScalar userId test.testId rnd * 100) 0 with
      | some w => rw [hpick] at hassign; exact Option.noConfusion hassign
      | none =>
        rw [hpick] at hassign
        have : (test.variants.filter (fun v => 0 < v.weight)) = [] := by
          simpa [List.head?_eq_none_iff] using hassign
        exact hq (by simp [this])

/-- C7 counterexample: the hero test with a stale stored id resolves by a
fresh weighted draw to the non-default protective-focus variant, not to the
default variant as the claim states. -/
theorem abtest_c7_counterexample :
    getStoredVariant envBogus "hero-messaging-test" = some "bogus"
  ∧ isValidVariant heroABTest "bogus" = false
  ∧ (getVariant abTestConfig abTestRegistry envBogus "hero-messaging-test" none (3 / 4)).variant
      = some { id := "protective-focus", name := "Alternative - Protection Focus", weight := 50 }
  ∧ getDefaultVariant heroABTest
      = some { id := "original", name := "Original - Guardian Focus", weight := 50 }
  ∧ ({ id := "protective-focus", name := "Alternative - Protection Focus", weight := 50 }
      : ABVariant)
      ≠ { id := "original", name := "Original - Guardian Focus", weight := 50 } := by
  have hassign : assignVariantByWeight heroABTest none (3 / 4)
      = some { id := "protective-focus", name := "Alternative - Protection Focus", weight := 50 } := by
    norm_num [assignVariantByWeight, pickByWeight, selectionScalar, heroABTest, List.filter]
  refine ⟨rfl, rfl, ?_, rfl, ?_⟩
  · have h1 : getTestByIdFromRegistry abTestRegistry "hero-messaging-test" = some heroABTest := rfl
    have h2 : getStoredVariant envBogus "hero-messaging-test" = some "bogus" := rfl
    have h3 : isValidVariant heroABTest "bogus" = false := rfl
    have hen : heroABTest.enabled = true := rfl
    have hce : abTestConfig.enabled = true := rfl
    unfold getVariant
    rw [h1]
    simp [h2, h3, hassign, hen, hce]
  · intro h
    exact absurd (congrArg ABVariant.id h) (by decide)

/-- C7 amended-claim witness: the counterexample state resolved with scalar
0.75 indeed returns exactly the fresh weighted selection. -/
theorem abtest_c7_witness :
    (getVariant abTestConfig abTestRegistry envBogus "hero-messaging-test" none (3 / 4)).variant
      = assignVariantByWeight heroABTest none (3 / 4) :=
  abtest_c7 abTestConfig abTestRegistry envBogus "hero-messaging-test" heroABTest none (3 / 4)
    "bogus" rfl rfl rfl rfl rfl

/-- C9: without a window every read misses and every write is the identity;
in a browser whose cookie payload does not decode, a primary-store miss
makes the read a total miss, and a write rebuilds the cookie mapping from
the empty object (all functions are total, mirroring the catch-all error
handling of the source). -/
theorem abtest_c9 (env : BrowserEnv) (testId variantId : String) :
    (env.hasWindow = false →
        getStoredVariant env testId = none ∧ storeVariant env testId variantId = env)
  ∧ (env.hasWindow = true → env.cookie = some CookiePayload.malformed →
        (lookupStr env.localStore ("ab_" ++ testId) = none →
          getStoredVariant env testId = none)
      ∧ storeVariant env testId variantId
          = { env with localStore := insertStr env.localStore ("ab_" ++ testId) variantId
                     , cookie := some (.wellFormed [(testId, variantId)]) }) := by
  constructor
  · intro h
    constructor <;> simp [getStoredVariant, storeVariant, h]
  · intro hw hc
    constructor
    · intro hl
      simp [getStoredVariant, readCookieVariant, hw, hc, hl]
    · simp [storeVariant, hw, hc, insertStr]

/-- C9 witness: a window-less state with stale content is read as empty and
written as a no-op, and a malformed cookie is rebuilt from empty on the next
write while reads treat it as a miss. -/
theorem abtest_c9_witness :
    getStoredVariant envNoWindow "t" = none
  ∧ storeVariant envNoWindow "t" "v" = envNoWindow
  ∧ getStoredVariant envMalformed "t" = none
  ∧ storeVariant envMalformed "t" "v"
      = ⟨true, [("ab_t", "v")], some (.wellFormed [("t", "v")])⟩ :=
  ⟨((abtest_c9 envNoWindow "t" "v").1 rfl).1,
    ((abtest_c9 envNoWindow "t" "v").1 rfl).2,
    ((abtest_c9 envMalformed "t" "v").2 rfl rfl).1 rfl,
    ((abtest_c9 envMalformed "t" "v").2 rfl rfl).2⟩

/-- Total weight of a test whose qualifying variants are all of them and sum
to 100 keeps the selection loop from falling through for any scalar at most
1. -/
theorem assignTotal (test : ABTest) (userId : Option String) (rnd : ℚ) (hr1 : rnd ≤ 1)
    (hfil : test.variants.filter (fun v => 0 < v.weight) = test.variants)
    (hsum : takeWeightSum test.variants test.variants.length = 100)
    (hne : test.variants ≠ []) :
    (test.variants.filter (fun v => 0 < v.weight)).length ≠ 0
  ∧ pickByWeight (test.variants.filter (fun v => 0 < v.weight))
      (selectionScalar userId test.testId rnd * 100) 0 ≠ none := by
  rw [hfil]
  constructor
  · simpa [List.length_eq_zero] using hne
  · have hs : selectionScalar userId test.testId rnd ≤ 1 :=
      selectionScalar_le_one userId test.testId rnd hr1
    have htot : selectionScalar userId test.testId rnd * 100
        ≤ 0 + takeWeightSum test.variants test.variants.length := by
      rw [hsum]
      linarith
    exact Option.ne_none_iff_isSome.mpr (pickByWeight_isSome test.variants _ 0 hne htot)

/-- C10: every shipped registry test is well-formed — exactly one variant
carries the default id, variant ids are distinct, weights lie in [0,100] and
sum to 100 — and consequently, for any selection scalar in the unit
interval, the positive-weight filter is never empty and the selection loop
never falls through. -/
theorem abtest_c10 :
    (∀ p ∈ abTestRegistry,
        (p.2.variants.filter (fun v => v.id == p.2.defaultVariant)).length = 1
      ∧ (p.2.variants.map (fun v => v.id)).Nodup
      ∧ (∀ v ∈ p.2.variants, 0 ≤ v.weight ∧ v.weight ≤ 100)
      ∧ (p.2.variants.map (fun v => v.weight)).sum = 100)
  ∧ (∀ p ∈ abTestRegistry, ∀ (userId : Option String) (rnd : ℚ),
        0 ≤ rnd → rnd < 1 →
        (p.2.variants.filter (fun v => 0 < v.weight)).length ≠ 0
      ∧ pickByWeight (p.2.variants.filter (fun v => 0 < v.weight))
          (selectionScalar userId p.2.testId rnd * 100) 0 ≠ none) := by
  constructor
  · intro p hp
    have hp3 : p = ("hero", heroABTest) ∨ p = ("mission", missionABTest)
        ∨ p = ("cta", ctaABTest) := by
      simpa [abTestRegistry] using hp
    rcases hp3 with rfl | rfl | rfl <;>
      refine ⟨by decide, by decide, ?_, by norm_num [heroABTest, missionABTest, ctaABTest]⟩ <;>
      · intro v hv
        simp [heroABTest, missionABTest, ctaABTest] at hv
        rcases hv with rfl | rfl | rfl <;> norm_num
  · intro p hp userId rnd hr0 hr1
    have hp3 : p = ("hero", heroABTest) ∨ p = ("mission", missionABTest)
        ∨ p = ("cta", ctaABTest) := by
      simpa [abTestRegistry] using hp
    rcases hp3 with rfl | rfl | rfl
    · exact assignTotal heroABTest userId rnd (le_of_lt hr1)
        (by norm_num [heroABTest, List.filter])
        (by norm_num [takeWeightSum, heroABTest]) (by simp [heroABTest])
    · exact assignTotal missionABTest userId rnd (le_of_lt hr1)
        (by norm_num [missionABTest, List.filter])
        (by norm_num [takeWeightSum, missionABTest]) (by simp [missionABTest])
    · exact assignTotal ctaABTest userId rnd (le_of_lt hr1)
        (by norm_num [ctaABTest, List.filter])
        (by norm_num [takeWeightSum, ctaABTest]) (by simp [ctaABTest])

/-- C10 witness: the mission test satisfies the well-formedness conjuncts,
and the hero test with anonymous scalar one half neither skips selection nor
falls through. -/
theorem abtest_c10_witness :
    ((missionABTest.variants.filter (fun v => v.id == missionABTest.defaultVariant)).length = 1
      ∧ (missionABTest.variants.map (fun v => v.weight)).sum = 100)
  ∧ ((heroABTest.variants.filter (fun v => 0 < v.weight)).length ≠ 0
      ∧ pickByWeight (heroABTest.variants.filter (fun v => 0 < v.weight))
          (selectionScalar none heroABTest.testId (1 / 2) * 100) 0 ≠ none) :=
  ⟨⟨(abtest_c10.1 ("mission", missionABTest) (by simp [abTestRegistry])).1,
     (abtest_c10.1 ("mission", missionABTest) (by simp [abTestRegistry])).2.2.2⟩,
   abtest_c10.2 ("hero", heroABTest) (by simp [abTestRegistry]) none (1 / 2)
     (by norm_num) (by norm_num)⟩

/-- C8 (amended): hashStringToNumber always lands in the closed interval
[0,1]; the bound is not strict, as the next theorem witnesses. -/
theorem abtest_c8 (s : String) : 0 ≤ hashStringToNumber s ∧ hashStringToNumber s ≤ 1 :=
  hashStringToNumber_mem_unit s

/-- C8 counterexample: a five-character string whose 32-bit hash is exactly
-2^31, so hashStringToNumber returns exactly 1, refuting the half-open
interval [0,1). -/
theorem abtest_c8_counterexample :
    hashStringToNumber hashOneString = 1 ∧ ¬ hashStringToNumber hashOneString < 1 := by
  have h : hashInt (strCodes hashOneString) = -2147483648 := by decide
  have e : hashStringToNumber hashOneString = 1 := by
    unfold hashStringToNumber
    rw [h]
    norm_num
  exact ⟨e, by rw [e]; exact lt_irrefl 1⟩

end WardenAB
